import Mathlib

/-!
Verification of the shared ONTAP driver control logic
(`storage_drivers/ontap/ontap_common.go`) against its natural-language
specification.  Each Go function relevant to the claims is shallowly
embedded as an executable Lean definition; remote management-API calls are
modelled as explicit inputs (responses supplied to the function), and the
sequence of mutating remote calls is returned as a trace where a claim
speaks about side effects.
-/

namespace Ontap

/-! ## Constants from the source -/

/-- Timeout, in seconds, for the load-sharing-mirror idle wait
(`LSMirrorIdleTimeoutSecs = 30`). -/
def LSMirrorIdleTimeoutSecs : Nat := 30

/-- Minimum volume size in bytes (`MinimumVolumeSizeBytes = 20971520`, 20 MiB). -/
def MinimumVolumeSizeBytes : Nat := 20971520

/-- Startup delay in seconds before the first telemetry heartbeat
(`HousekeepingStartupDelaySecs = 10`). -/
def HousekeepingStartupDelaySecs : Nat := 10

/-- Milliseconds per hour (`MSecPerHour = 1000 * 60 * 60`). -/
def MSecPerHour : Int := 1000 * 60 * 60

/-! ## GetVolumeSize (claim C8)

Embedding of

    func GetVolumeSize(sizeBytes uint64, config drivers.OntapStorageDriverConfig) (uint64, error)

The Go code resolves a zero request to the configured default size by parsing
`config.Size` with `utils.ConvertSizeToBytes` and `strconv.ParseUint`, both
with their errors discarded (a failed parse leaves `sizeBytes` at 0).  We model
the composed parse result as `configSizeParsed : Option Nat`, where `none`
stands for either parse failing (yielding 0 in Go). -/

/-- Predicate for a Go call that returned a non-nil error. -/
def isErr {ε α : Type} : Except ε α → Bool
  | .error _ => true
  | .ok _ => false

/-- Embedding of `GetVolumeSize`: substitute the configured default for a zero
request, then enforce the minimum volume size floor. -/
def GetVolumeSize (sizeBytes : Nat) (configSizeParsed : Option Nat) : Except String Nat :=
  let sizeBytes := if sizeBytes = 0 then configSizeParsed.getD 0 else sizeBytes
  if sizeBytes < MinimumVolumeSizeBytes then
    .error ("requested volume size (" ++ toString sizeBytes ++ " bytes) is too small; " ++
      "the minimum volume size is " ++ toString MinimumVolumeSizeBytes ++ " bytes")
  else
    .ok sizeBytes

/-! ## Internal volume name derivation (claim C10)

Embedding of `getInternalVolumeNameCommon`.  The process-wide flag
`trident.UsingPassthroughStore` and the collaborator
`drivers.GetCommonInternalVolumeName` live outside this file; following the
spec's design note they become explicit parameters.  `strings.Replace` with a
negative count (replace all, left to right, non-overlapping) is embedded
generically over character lists. -/

/-- Test whether `pat` occurs at the head of `s` (Go's prefix test inside
`strings.Replace`). -/
def matchesAt : List Char → List Char → Bool
  | [], _ => true
  | _ :: _, [] => false
  | p :: ps, c :: cs => p = c && matchesAt ps cs

/-- Embedding of Go's `strings.Replace(s, pat, rep, -1)`: replace every
non-overlapping occurrence of `pat` in `s` by `rep`, scanning left to right.
(Go treats an empty pattern specially, inserting between characters; the
source only ever calls this with non-empty patterns, for which an empty
pattern's branch is irrelevant, so we scan past the head there.) -/
def stringsReplace (pat rep : List Char) : List Char → List Char
  | [] => []
  | c :: rest =>
    if pat ≠ [] ∧ matchesAt pat (c :: rest) then
      rep ++ stringsReplace pat rep (List.drop pat.length (c :: rest))
    else
      c :: stringsReplace pat rep rest
termination_by s => s.length
decreasing_by
  · rename_i h
    simp only [List.length_drop, List.length_cons]
    have hp : 1 ≤ pat.length := by
      cases pat with
      | nil => exact absurd rfl h.1
      | cons a l => simp
    omega
  · simp

/-- String-level wrapper for `stringsReplace`. -/
def stringsReplaceStr (s pat rep : String) : String :=
  ⟨stringsReplace pat.toList rep.toList s.toList⟩

/-- Embedding of `getInternalVolumeNameCommon`.  `usingPassthroughStore` is the
process-wide `trident.UsingPassthroughStore` flag and
`getCommonInternalVolumeName` the external collaborator
`drivers.GetCommonInternalVolumeName`, both passed explicitly; `storagePfx` is
`*commonConfig.StoragePrefix`. -/
def getInternalVolumeNameCommon (usingPassthroughStore : Bool)
    (getCommonInternalVolumeName : String → String)
    (storagePfx : String) (name : String) : String :=
  if usingPassthroughStore then
    storagePfx ++ name
  else
    let internal := getCommonInternalVolumeName name
    let internal := stringsReplaceStr internal "-" "_"
    let internal := stringsReplaceStr internal "." "_"
    let internal := stringsReplaceStr internal "__" "_"
    internal

/-! ## Telemetry heartbeat (claim C2)

Embedding of `NewOntapTelemetry`, `Telemetry.Start` and the background
goroutine it spawns.  The driver identity strings are passed explicitly.  The
configured `UsageHeartbeat` string is parsed by the standard library
(`strconv.ParseFloat`); we model the parse outcome as an `Option ℚ`, `none`
standing for "empty or unparseable" (both of which leave the 24-hour default
in place, the unparseable case after a logged warning). -/

/-- Truncation toward zero of a rational number, as Go's conversion of a
float64 to an integer `time.Duration` truncates toward zero. -/
def truncQ (q : ℚ) : Int := if 0 ≤ q then ⌊q⌋ else ⌈q⌉

/-- The telemetry state: identity fields plus the recurring-timer handle.
`tickerIntervalMs = none` models a nil `ticker` field (no `time.Ticker` was
created); `some d` models a ticker with period `d` milliseconds. -/
structure Telemetry where
  plugin : String
  svm : String
  storagePfx : String
  tickerIntervalMs : Option Int
  deriving DecidableEq, Repr

/-- Embedding of `NewOntapTelemetry`: compute the heartbeat interval from the
parsed `UsageHeartbeat` hours (default 24), and create the recurring timer
only when the computed millisecond duration is positive. -/
def NewOntapTelemetry (plugin svm storagePfx : String)
    (usageHeartbeatParsed : Option ℚ) : Telemetry :=
  let heartbeatIntervalInHours : ℚ := usageHeartbeatParsed.getD 24
  let durationMs : Int := truncQ ((MSecPerHour : ℚ) * heartbeatIntervalInHours)
  { plugin := plugin, svm := svm, storagePfx := storagePfx,
    tickerIntervalMs := if 0 < durationMs then some durationMs else none }

/-- An event delivered to the background goroutine: a timer tick becoming
ready on the ticker channel, or the stop signal (`close(t.done)`) becoming
observable. -/
inductive TelemetryEvent
  | tick
  | stop
  deriving DecidableEq, Repr

/-- An observable action of the background goroutine: an `EMSHeartbeat` call. -/
inductive TelemetryAction
  | heartbeat
  deriving DecidableEq, Repr

/-- How the background goroutine ended relative to a finite event schedule. -/
inductive RunOutcome
  | running
  | terminated
  | panicked
  deriving DecidableEq, Repr

/-- Embedding of the `for { select { ... } }` loop of the goroutine spawned by
`Telemetry.Start`.  Entering the `select` evaluates the channel operand
`t.ticker.C`; when no ticker was created, `t.ticker` is nil and this is a nil
pointer dereference — a runtime panic, regardless of which channel would have
been ready.  With a ticker present, a tick sends a heartbeat and loops, and
the stop signal returns. -/
def telemetryLoop (tickerPresent : Bool) (events : List TelemetryEvent) :
    List TelemetryAction × RunOutcome :=
  if tickerPresent then
    match events with
    | [] => ([], .running)
    | .tick :: rest =>
      let (acts, o) := telemetryLoop tickerPresent rest
      (.heartbeat :: acts, o)
    | .stop :: _ => ([], .terminated)
  else
    ([], .panicked)

/-- Embedding of the whole goroutine body started by `Telemetry.Start`: sleep
the 10-second startup delay, send the initial `EMSHeartbeat`, then enter the
select loop. -/
def telemetryStartBody (t : Telemetry) (events : List TelemetryEvent) :
    List TelemetryAction × RunOutcome :=
  let (acts, o) := telemetryLoop t.tickerIntervalMs.isSome events
  (.heartbeat :: acts, o)

/-! ## InitializeOntapAPI (claim C1)

Embedding of `InitializeOntapAPI`.  The management-API collaborator call
`client.VserverGetIterRequest()` (combined with `api.GetError`) is modelled as
an input `vserverList : Except String VserverResponse`; an `.error` covers both
a transport error and a failed ZAPI status, exactly the cases in which
`api.GetError(vserverResponse, err)` is non-nil. -/

/-- The configuration fields `InitializeOntapAPI` reads and writes. -/
structure OntapApiConfig where
  managementLIF : String
  svm : String
  username : String
  password : String
  deriving DecidableEq, Repr

/-- The argument of `api.NewClient`. -/
structure ClientConfig where
  managementLIF : String
  svm : String
  username : String
  password : String
  deriving DecidableEq, Repr

/-- Embedding of the external `api.NewClient`: the client is identified by the
configuration it was constructed with. -/
structure Client where
  config : ClientConfig
  deriving DecidableEq, Repr

/-- Embedding of `api.NewClient`. -/
def newClient (cc : ClientConfig) : Client := ⟨cc⟩

/-- The part of the `VserverGetIterRequest` response the function reads:
`NumRecords()` and the vserver names of `AttributesList()`. -/
structure VserverResponse where
  numRecords : Nat
  vserverNames : List String
  deriving DecidableEq, Repr

/-- Embedding of `InitializeOntapAPI`: builds a client from the configuration;
if the SVM is unset, derives it from the vserver enumeration (requiring exactly
one record) and rebuilds the client bound to the derived SVM.  Returns the
updated configuration together with the client. -/
def InitializeOntapAPI (config : OntapApiConfig)
    (vserverList : Except String VserverResponse) :
    Except String (OntapApiConfig × Client) :=
  let client := newClient
    { managementLIF := config.managementLIF, svm := config.svm,
      username := config.username, password := config.password }
  if config.svm ≠ "" then
    .ok (config, client)
  else
    match vserverList with
    | .error e => .error ("error enumerating SVMs: " ++ e)
    | .ok resp =>
      if resp.numRecords ≠ 1 then
        .error "cannot derive SVM to use; please specify SVM in config file"
      else
        let config := { config with svm := resp.vserverNames.headD "" }
        .ok (config, newClient
          { managementLIF := config.managementLIF, svm := config.svm,
            username := config.username, password := config.password })

/-! ## CreateOntapClone (claims C4, C5)

Embedding of `CreateOntapClone`.  Each management-API call the function can
make is modelled as a field of `CloneApi` giving that call's response; the
embedding additionally returns the ordered list of mutating remote calls it
issued, so that "no remote mutation occurred" is the trace being empty. -/

/-- A ZAPI status as seen through `api.NewZapiError`: whether the call passed,
its error code, and its rendered message. -/
structure ZapiErr where
  passed : Bool
  code : Nat
  msg : String
  deriving DecidableEq, Repr

/-- Modelled from the spec: the structured remote-error code for "object not
found" (`azgo.EOBJECTNOTFOUND`, defined outside src/).  The spec only requires
an "object not found" code distinguishable from every other code. -/
def EOBJECTNOTFOUND : Nat := 15661

/-- Modelled from the spec: the NAS driver name constant
(`drivers.OntapNASStorageDriverName`, defined outside src/), the driver kind
whose storage exposes a mountable namespace. -/
def OntapNASStorageDriverName : String := "ontap-nas"

/-- The remote responses `CreateOntapClone` consumes.  For calls whose result
is only inspected through `api.GetError`, an `Option String` holds the
combined transport-or-status error (`none` means success); `volumeCloneCreate`
keeps transport error and ZAPI status separate because the code inspects the
status code itself. -/
structure CloneApi where
  volumeExists : String → Except String Bool
  snapshotCreate : String → String → Option String
  volumeCloneCreate : String → String → String → Except String ZapiErr
  volumeMount : String → String → Option String
  volumeCloneSplitStart : String → Option String

/-- A mutating remote call issued by the clone workflow. -/
inductive RemoteMutation
  | snapshotCreate (snapshot source : String)
  | cloneCreate (name source snapshot : String)
  | mount (name junctionPath : String)
  | splitStart (name : String)
  deriving DecidableEq, Repr

/-- Embedding of `CreateOntapClone`.  `nowStamp` is the formatted UTC
timestamp `time.Now().UTC().Format("20060102T150405Z")` used when no snapshot
name was supplied; `storageDriverName` is `config.StorageDriverName`.  Returns
the Go function's error result paired with the trace of mutating remote calls
issued. -/
def CreateOntapClone (name source snapshot : String) (split : Bool)
    (storageDriverName nowStamp : String) (apiC : CloneApi) :
    Except String Unit × List RemoteMutation :=
  match apiC.volumeExists name with
  | .error e => (.error ("error checking for existing volume: " ++ e), [])
  | .ok true => (.error ("volume " ++ name ++ " already exists"), [])
  | .ok false =>
    let snapStep : Except String String × List RemoteMutation :=
      if snapshot = "" then
        match apiC.snapshotCreate nowStamp source with
        | some e => (.error ("error creating snapshot: " ++ e),
                     [.snapshotCreate nowStamp source])
        | none => (.ok nowStamp, [.snapshotCreate nowStamp source])
      else
        (.ok snapshot, [])
    match snapStep with
    | (.error e, tr) => (.error e, tr)
    | (.ok snapName, tr) =>
      let tr := tr ++ [.cloneCreate name source snapName]
      match apiC.volumeCloneCreate name source snapName with
      | .error e => (.error ("error creating clone: " ++ e), tr)
      | .ok zerr =>
        if zerr.passed = false then
          if zerr.code = EOBJECTNOTFOUND then
            (.error ("snapshot " ++ snapName ++ " does not exist in volume " ++ source), tr)
          else
            (.error ("error creating clone: " ++ zerr.msg), tr)
        else
          let mountStep : Option String × List RemoteMutation :=
            if storageDriverName = OntapNASStorageDriverName then
              (apiC.volumeMount name ("/" ++ name), [.mount name ("/" ++ name)])
            else
              (none, [])
          match mountStep with
          | (some e, tr2) =>
            (.error ("error mounting volume to junction: " ++ e), tr ++ tr2)
          | (none, tr2) =>
            if split then
              match apiC.volumeCloneSplitStart name with
              | some e => (.error ("error splitting clone: " ++ e),
                           tr ++ tr2 ++ [.splitStart name])
              | none => (.ok (), tr ++ tr2 ++ [.splitStart name])
            else
              (.ok (), tr ++ tr2)

/-! ## UpdateLoadSharingMirrors (claim C7)

Embedding of `UpdateLoadSharingMirrors`.  Remote responses are supplied as
inputs; the wait loop sleeps one second per iteration, so on the i-th loop
iteration the wall clock reads i seconds past the start of waiting, and the
`time.Now().After(timeout)` test is `LSMirrorIdleTimeoutSecs < i`.  The Go
function returns nothing (all failures are logged and swallowed); the
embedding returns the number of wait-loop polls performed and how the
function exited, which is the claim's observable. -/

/-- A ZAPI response status: whether the call passed, plus its rendered status
error. -/
structure ZapiStatus where
  passed : Bool
  errMsg : String
  deriving DecidableEq, Repr

/-- Modelled from the spec: `api.GetError(response, err)` (defined outside
src/) returns the non-nil transport error if there is one, else the
response's failed status as an error, else nil. -/
def getError (status : ZapiStatus) (err : Option String) : Option String :=
  match err with
  | some e => some e
  | none => if status.passed then none else some status.errMsg

/-- One load-sharing mirror relationship record (`SnapmirrorInfoType`):
source location and the optional relationship status
(`RelationshipStatusPtr`). -/
structure SnapmirrorInfo where
  sourceLocation : String
  relationshipStatus : Option String
  deriving DecidableEq, Repr

/-- A `SnapmirrorGetLoadSharingMirrors` response: transport error, own ZAPI
status, `NumRecords()` and `AttributesList()`. -/
structure MirrorResponse where
  err : Option String
  status : ZapiStatus
  numRecords : Nat
  records : List SnapmirrorInfo
  deriving DecidableEq, Repr

/-- A `VolumeGetRootName` response. -/
structure RootNameResponse where
  err : Option String
  status : ZapiStatus
  volume : String
  deriving DecidableEq, Repr

/-- The remote responses `UpdateLoadSharingMirrors` consumes.  `poll i` is the
response of the i-th wait-loop `SnapmirrorGetLoadSharingMirrors` call (1-based).
Only the transport error of the update call is modelled because the source
checks the update (and every mirror listing) through
`api.GetError(rootVolumeResponse, err)`, discarding the update response; the
update's argument (the first record's source location) does not influence
control flow. -/
structure MirrorApi where
  volumeGetRootName : RootNameResponse
  initialMirrors : MirrorResponse
  updateErr : Option String
  poll : Nat → MirrorResponse

/-- The idleness check of the wait loop: every listed mirror must carry a
relationship status equal to "idle"; an absent status counts as not idle. -/
def mirrorsIdle (records : List SnapmirrorInfo) : Bool :=
  records.all fun m => m.relationshipStatus == some "idle"

/-- How `UpdateLoadSharingMirrors` exited. -/
inductive MirrorExit
  | rootError
  | listError
  | noMirrors
  | updateError
  | pollError
  | pollNoMirrors
  | allIdle
  | timedOut
  deriving DecidableEq, Repr

/-- Embedding of the wait loop of `UpdateLoadSharingMirrors`, entered at
iteration `i` (first iteration is 1).  Each iteration sleeps one second, polls
the mirrors, and exits on a call error, on an empty record set, when all
mirrors are idle, or when the wall clock (i seconds) has passed the 30-second
timeout.  Returns the total number of polls and the exit cause.  Note the
source's error check in the loop reads the root-volume response's status
(`api.GetError(rootVolumeResponse, err)`), reproduced here. -/
def mirrorWaitLoop (poll : Nat → MirrorResponse) (rootStatus : ZapiStatus) (i : Nat) :
    Nat × MirrorExit :=
  let resp := poll i
  match getError rootStatus resp.err with
  | some _ => (i, .pollError)
  | none =>
    if resp.numRecords = 0 then (i, .pollNoMirrors)
    else if mirrorsIdle resp.records then (i, .allIdle)
    else if LSMirrorIdleTimeoutSecs < i then (i, .timedOut)
    else mirrorWaitLoop poll rootStatus (i + 1)
termination_by LSMirrorIdleTimeoutSecs + 1 - i
decreasing_by
  rename_i hle
  rw [Nat.not_lt] at hle
  omega

/-- Embedding of `UpdateLoadSharingMirrors`: resolve the root volume, list its
load-sharing mirrors (returning immediately when there are none), trigger an
update, then poll until idle or timeout.  Every exit path returns to the
caller without an error, as the Go function has no error result. -/
def UpdateLoadSharingMirrors (apiM : MirrorApi) : Nat × MirrorExit :=
  let root := apiM.volumeGetRootName
  match getError root.status root.err with
  | some _ => (0, .rootError)
  | none =>
    let mresp := apiM.initialMirrors
    match getError root.status mresp.err with
    | some _ => (0, .listError)
    | none =>
      if mresp.numRecords = 0 then (0, .noMirrors)
      else
        match getError root.status apiM.updateErr with
        | some _ => (0, .updateError)
        | none => mirrorWaitLoop apiM.poll root.status 1

/-! ## Pool discovery (claims C3, C6)

Embedding of `getStorageBackendSpecsCommon` and the two aggregate-attribute
strategies `getVserverAggregateAttributes` / `getClusterAggregateAttributes`.
Remote responses are inputs.  Go keeps the pools in a name-keyed map; the
embedding keeps an insertion-ordered list with map semantics (duplicate names
collapse, membership by name).  The panic-recovery wrapper of the Go function
is not modelled: no claim concerns the recover path. -/

/-- A management-API failure of an aggregate-attribute call: a transport
error, or a structured ZAPI error.  The `isScope` flag is the classification
made by the external `api.ZapiError.IsScopeError` (modelled from the spec:
a privilege/authorization failure). -/
inductive ApiError
  | transport (msg : String)
  | zapi (msg : String) (isScope : Bool)
  deriving DecidableEq, Repr

/-- The scope-error test the discovery code performs on the strategy failure:
the Go type assertion `aggrErr.(api.ZapiError)` followed by `IsScopeError()`
(a transport error is not a `ZapiError`, hence never a scope error). -/
def ApiError.isScopeError : ApiError → Bool
  | .transport _ => false
  | .zapi _ isScope => isScope

/-- A storage pool: its name and its attribute map (attribute name ↦ offer),
kept as an association list where the most recent insertion shadows older
entries. -/
structure Pool where
  name : String
  attributes : List (String × String)
  deriving DecidableEq, Repr

/-- The media attribute name (external constant `sa.Media`). -/
def saMedia : String := "media"

/-- Embedding of the `ontapPerformanceClasses` table: map an aggregate "type"
string to the media attribute offers of that performance class (external
offer values `sa.HDD`, `sa.Hybrid`, `sa.SSD`). -/
def ontapPerformanceClasses : String → Option (List (String × String))
  | "hdd" => some [(saMedia, "hdd")]
  | "hybrid" => some [(saMedia, "hybrid")]
  | "ssd" => some [(saMedia, "ssd")]
  | _ => none

/-- Shared per-record body of both aggregate-attribute strategies: find the
pool matching the aggregate name (aggregates without a matching pool are
skipped), skip unknown media types with a logged warning, otherwise set the
storage attributes on the pool. -/
def updatePoolsWithAggr (pools : List Pool) (aggrName aggrType : String) : List Pool :=
  match ontapPerformanceClasses aggrType with
  | none => pools
  | some storageAttrs =>
    pools.map fun p =>
      if p.name = aggrName then
        { p with attributes := storageAttrs.foldl (fun a kv => kv :: a) p.attributes }
      else p

/-- Embedding of `getVserverAggregateAttributes`: consume the
`VserverShowAggrGetIterRequest` outcome — a transport or ZAPI error (pools
unchanged, error returned), or the list of (aggregate name, aggregate type)
records (pools updated, no error). -/
def getVserverAggregateAttributes (resp : Except ApiError (List (String × String)))
    (pools : List Pool) : List Pool × Option ApiError :=
  match resp with
  | .error e => (pools, some e)
  | .ok records =>
    (records.foldl (fun ps r => updatePoolsWithAggr ps r.1 r.2) pools, none)

/-- Embedding of `getClusterAggregateAttributes` (cluster-scoped
`AggrGetIterRequest`, the aggregate type read through the raid attributes):
identical record handling to the vserver-scoped strategy. -/
def getClusterAggregateAttributes (resp : Except ApiError (List (String × String)))
    (pools : List Pool) : List Pool × Option ApiError :=
  match resp with
  | .error e => (pools, some e)
  | .ok records =>
    (records.foldl (fun ps r => updatePoolsWithAggr ps r.1 r.2) pools, none)

/-- Log level of the report about a failed aggregate-attribute lookup. -/
inductive LogLevel
  | warn
  | err
  deriving DecidableEq, Repr

/-- The management-API responses pool discovery consumes: the
`GetVserverAggregateNames` outcome, the `SupportsFeature(api.VServerShowAggr)`
answer, and the response of each strategy's iterator call. -/
structure DiscoveryInput where
  vserverAggrs : Except String (List String)
  supportsVServerShowAggr : Bool
  vserverShowAggrResp : Except ApiError (List (String × String))
  clusterAggrResp : Except ApiError (List (String × String))

/-- The successful outcome of pool discovery: the pools registered with the
backend, and the log signal (if any) that reported an aggregate-attribute
lookup failure. -/
structure DiscoveryResult where
  pools : List Pool
  aggrLog : Option LogLevel
  deriving DecidableEq, Repr

/-- Embedding of `getStorageBackendSpecsCommon`: enumerate the SVM's
aggregates (none is fatal), build one pool per aggregate name, restrict to
the configured aggregate if set (failing when it is not assigned), annotate
media attributes with the strategy chosen by the feature-support query — a
strategy failure is never fatal, logged at warning level when it is a scope
error and at error level otherwise — then merge the driver-supplied common
pool attributes into every pool and register the pools. -/
def getStorageBackendSpecsCommon (svm aggregate : String)
    (poolAttributes : List (String × String)) (inp : DiscoveryInput) :
    Except String DiscoveryResult :=
  match inp.vserverAggrs with
  | .error e => .error e
  | .ok vserverAggrs =>
    if vserverAggrs.length = 0 then
      .error ("SVM " ++ svm ++ " has no assigned aggregates")
    else
      let storagePools := vserverAggrs.foldl (fun ps aggrName =>
        if ps.any (fun p => p.name == aggrName) then ps
        else ps ++ [{ name := aggrName, attributes := [] }]) ([] : List Pool)
      let restricted : Except String (List Pool) :=
        if aggregate ≠ "" then
          if storagePools.any (fun p => p.name == aggregate) then
            .ok [{ name := aggregate, attributes := [] }]
          else
            .error ("the assigned aggregates for SVM " ++ svm ++
              " do not include the configured aggregate " ++ aggregate)
        else
          .ok storagePools
      match restricted with
      | .error e => .error e
      | .ok storagePools =>
        let strat :=
          if inp.supportsVServerShowAggr then
            getVserverAggregateAttributes inp.vserverShowAggrResp storagePools
          else
            getClusterAggregateAttributes inp.clusterAggrResp storagePools
        let aggrLog : Option LogLevel :=
          match strat.2 with
          | some e => if e.isScopeError then some .warn else some .err
          | none => none
        let pools := strat.1.map fun p =>
          { p with attributes := poolAttributes.foldl (fun a kv => kv :: a) p.attributes }
        .ok { pools := pools, aggrLog := aggrLog }

/-! ## PopulateConfigurationDefaults (claim C9)

Embedding of `PopulateConfigurationDefaults` and its validation helpers.  The
external size parser `utils.ConvertSizeToBytes` is a parameter
(`convertSizeToBytes`, `none` modelling a parse failure); the external
constants `drivers.DefaultVolumeSize` and the driver-context storage-name
prefix from `drivers.GetDefaultStoragePrefix` are parameters
`defaultVolumeSize` / `defaultStoragePfx`.  Error messages keep the fixed Go
text without the appended underlying-error rendering. -/

/-- The strings Go's `strconv.ParseBool` accepts, and their values. -/
def parseBool? : String → Option Bool
  | "1" | "t" | "T" | "true" | "TRUE" | "True" => some true
  | "0" | "f" | "F" | "false" | "FALSE" | "False" => some false
  | _ => none

/-- Default space reservation mode (`DefaultSpaceReserve`). -/
def DefaultSpaceReserve : String := "none"

/-- Default snapshot policy (`DefaultSnapshotPolicy`). -/
def DefaultSnapshotPolicy : String := "none"

/-- Default unix permissions (`DefaultUnixPermissions`). -/
def DefaultUnixPermissions : String := "---rwxrwxrwx"

/-- Default snapshot-directory visibility (`DefaultSnapshotDir`). -/
def DefaultSnapshotDir : String := "false"

/-- Default export policy (`DefaultExportPolicy`). -/
def DefaultExportPolicy : String := "default"

/-- Default security style (`DefaultSecurityStyle`). -/
def DefaultSecurityStyle : String := "unix"

/-- Default NFS mount options (`DefaultNfsMountOptions`). -/
def DefaultNfsMountOptions : String := "-o nfsvers=3"

/-- Default split-on-clone flag (`DefaultSplitOnClone`). -/
def DefaultSplitOnClone : String := "false"

/-- Default filesystem type (`DefaultFileSystemType`). -/
def DefaultFileSystemType : String := "ext4"

/-- Default encryption flag (`DefaultEncryption`). -/
def DefaultEncryption : String := "false"

/-- The configuration fields `PopulateConfigurationDefaults` reads and
writes.  `storagePfx` models the `StoragePrefix *string` pointer field
(`none` = nil pointer). -/
structure OntapStorageDriverConfig where
  size : String
  storagePfx : Option String
  spaceReserve : String
  snapshotPolicy : String
  unixPermissions : String
  snapshotDir : String
  exportPolicy : String
  securityStyle : String
  nfsMountOptions : String
  splitOnClone : String
  fileSystemType : String
  encryption : String
  deriving DecidableEq, Repr

/-- Final defaulting steps of `PopulateConfigurationDefaults` (fileSystemType
and encryption), reached after the splitOnClone validation. -/
def populateTail (config : OntapStorageDriverConfig) :
    Except String OntapStorageDriverConfig :=
  let config := { config with fileSystemType := if config.fileSystemType = "" then DefaultFileSystemType else config.fileSystemType }
  let config := { config with encryption := if config.encryption = "" then DefaultEncryption else config.encryption }
  .ok config

/-- Defaulting steps of `PopulateConfigurationDefaults` from the storage
prefix through splitOnClone; an explicitly supplied splitOnClone value is
validated with `strconv.ParseBool`. -/
def populateRest (defaultStoragePfx : String) (config : OntapStorageDriverConfig) :
    Except String OntapStorageDriverConfig :=
  let config := { config with storagePfx := if config.storagePfx = none then some defaultStoragePfx else config.storagePfx }
  let config := { config with spaceReserve := if config.spaceReserve = "" then DefaultSpaceReserve else config.spaceReserve }
  let config := { config with snapshotPolicy := if config.snapshotPolicy = "" then DefaultSnapshotPolicy else config.snapshotPolicy }
  let config := { config with unixPermissions := if config.unixPermissions = "" then DefaultUnixPermissions else config.unixPermissions }
  let config := { config with snapshotDir := if config.snapshotDir = "" then DefaultSnapshotDir else config.snapshotDir }
  let config := { config with exportPolicy := if config.exportPolicy = "" then DefaultExportPolicy else config.exportPolicy }
  let config := { config with securityStyle := if config.securityStyle = "" then DefaultSecurityStyle else config.securityStyle }
  let config := { config with nfsMountOptions := if config.nfsMountOptions = "" then DefaultNfsMountOptions else config.nfsMountOptions }
  if config.splitOnClone = "" then
    populateTail { config with splitOnClone := DefaultSplitOnClone }
  else
    match parseBool? config.splitOnClone with
    | none => .error "invalid boolean value for splitOnClone"
    | some _ => populateTail config

/-- Embedding of `PopulateConfigurationDefaults`: the default volume size is
substituted for an empty size (a supplied size must parse), then every other
optional field is defaulted in order. -/
def PopulateConfigurationDefaults (convertSizeToBytes : String → Option Nat)
    (defaultVolumeSize defaultStoragePfx : String)
    (config : OntapStorageDriverConfig) : Except String OntapStorageDriverConfig :=
  if config.size = "" then
    populateRest defaultStoragePfx { config with size := defaultVolumeSize }
  else
    match convertSizeToBytes config.size with
    | none => .error "invalid config value for default volume size"
    | some _ => populateRest defaultStoragePfx config

/-- The fully-defaulted configuration `PopulateConfigurationDefaults`
produces on success: each optional field replaced by its documented default
exactly when it was absent. -/
def resolvedConfig (defaultVolumeSize defaultStoragePfx : String)
    (c : OntapStorageDriverConfig) : OntapStorageDriverConfig where
  size := if c.size = "" then defaultVolumeSize else c.size
  storagePfx := if c.storagePfx = none then some defaultStoragePfx else c.storagePfx
  spaceReserve := if c.spaceReserve = "" then DefaultSpaceReserve else c.spaceReserve
  snapshotPolicy := if c.snapshotPolicy = "" then DefaultSnapshotPolicy else c.snapshotPolicy
  unixPermissions := if c.unixPermissions = "" then DefaultUnixPermissions else c.unixPermissions
  snapshotDir := if c.snapshotDir = "" then DefaultSnapshotDir else c.snapshotDir
  exportPolicy := if c.exportPolicy = "" then DefaultExportPolicy else c.exportPolicy
  securityStyle := if c.securityStyle = "" then DefaultSecurityStyle else c.securityStyle
  nfsMountOptions := if c.nfsMountOptions = "" then DefaultNfsMountOptions else c.nfsMountOptions
  splitOnClone := if c.splitOnClone = "" then DefaultSplitOnClone else c.splitOnClone
  fileSystemType := if c.fileSystemType = "" then DefaultFileSystemType else c.fileSystemType
  encryption := if c.encryption = "" then DefaultEncryption else c.encryption

/-! Character lemmas about `stringsReplace`. -/

/-- Any character of a replaced string comes from the replacement or from the
original string. -/
theorem mem_stringsReplace {x : Char} {pat rep : List Char} :
    ∀ {s : List Char}, x ∈ stringsReplace pat rep s → x ∈ rep ∨ x ∈ s := by
  intro s
  induction s using stringsReplace.induct pat rep with
  | case1 => intro h; simp [stringsReplace] at h
  | case2 c rest h ih =>
    intro hx
    rw [stringsReplace, if_pos h] at hx
    rcases List.mem_append.mp hx with h1 | h2
    · exact Or.inl h1
    · rcases ih h2 with h3 | h4
      · exact Or.inl h3
      · exact Or.inr (List.mem_of_mem_drop h4)
  | case3 c rest h ih =>
    intro hx
    rw [stringsReplace, if_neg h] at hx
    rcases List.mem_cons.mp hx with h1 | h2
    · exact Or.inr (h1 ▸ List.mem_cons_self c rest)
    · rcases ih h2 with h3 | h4
      · exact Or.inl h3
      · exact Or.inr (List.mem_cons_of_mem c h4)

/-- Replacing every occurrence of a single character removes it, provided the
replacement does not contain it. -/
theorem not_mem_stringsReplace_single {p : Char} {rep : List Char}
    (hrep : p ∉ rep) : ∀ {s : List Char}, p ∉ stringsReplace [p] rep s := by
  intro s
  induction s using stringsReplace.induct [p] rep with
  | case1 => simp [stringsReplace]
  | case2 c rest h ih =>
    rw [stringsReplace, if_pos h]
    intro hx
    rcases List.mem_append.mp hx with h1 | h2
    · exact hrep h1
    · exact ih h2
  | case3 c rest h ih =>
    rw [stringsReplace, if_neg h]
    intro hx
    rcases List.mem_cons.mp hx with h1 | h2
    · apply h
      refine ⟨by simp, ?_⟩
      simp [matchesAt, h1]
    · exact ih h2

/-- A nonpositive rational truncates to a nonpositive integer. -/
theorem truncQ_nonpos {q : ℚ} (h : q ≤ 0) : truncQ q ≤ 0 := by
  unfold truncQ
  by_cases h0 : (0 : ℚ) ≤ q
  · rw [if_pos h0]
    have hq : q = 0 := le_antisymm h h0
    simp [hq]
  · rw [if_neg h0]
    exact Int.ceil_le.mpr (by exact_mod_cast h)

/-- A zero-or-negative configured heartbeat interval creates no ticker. -/
theorem NewOntapTelemetry_no_ticker (plugin svm pfx : String) {q : ℚ} (h : q ≤ 0) :
    (NewOntapTelemetry plugin svm pfx (some q)).tickerIntervalMs = none := by
  have hm : (0 : ℚ) ≤ (MSecPerHour : ℚ) := by norm_num [MSecPerHour]
  have hle : truncQ ((MSecPerHour : ℚ) * q) ≤ 0 :=
    truncQ_nonpos (mul_nonpos_iff.mpr (Or.inl ⟨hm, h⟩))
  simp [NewOntapTelemetry, Option.getD, not_lt.mpr hle]

/-- The default 24-hour interval creates a ticker. -/
theorem NewOntapTelemetry_ticker_at_24 (plugin svm pfx : String) :
    (NewOntapTelemetry plugin svm pfx (some 24)).tickerIntervalMs.isSome = true := by
  have hcast : (MSecPerHour : ℚ) * 24 = ((86400000 : Int) : ℚ) := by
    norm_num [MSecPerHour]
  have hval : truncQ ((MSecPerHour : ℚ) * 24) = 86400000 := by
    rw [truncQ, if_pos (by rw [hcast]; positivity), hcast, Int.floor_intCast]
  simp [NewOntapTelemetry, Option.getD, hval]

/-- Claim C2 (code bug), evaluated at the failing input: a telemetry instance
constructed with a zero (or negative) heartbeat interval creates no recurring
timer, and if `Start` is called its background task sends the initial
heartbeat after the startup delay but then panics on a nil-pointer dereference
of the absent ticker when it enters the select loop — even with the stop
signal already pending — instead of running safely until stopped. -/
theorem telemetry_nil_ticker_panics :
    (NewOntapTelemetry "ontap-nas" "svm0" "trident_" (some 0)).tickerIntervalMs = none ∧
    (NewOntapTelemetry "ontap-nas" "svm0" "trident_" (some (-1))).tickerIntervalMs = none ∧
    telemetryStartBody (NewOntapTelemetry "ontap-nas" "svm0" "trident_" (some 0))
      [.stop] = ([.heartbeat], .panicked) ∧
    telemetryStartBody (NewOntapTelemetry "ontap-nas" "svm0" "trident_" (some 24))
      [.tick, .stop] = ([.heartbeat, .heartbeat], .terminated) := by
  have h0 := NewOntapTelemetry_no_ticker "ontap-nas" "svm0" "trident_" (le_refl (0 : ℚ))
  have hneg := NewOntapTelemetry_no_ticker "ontap-nas" "svm0" "trident_"
    (show (-1 : ℚ) ≤ 0 by norm_num)
  have h24 := NewOntapTelemetry_ticker_at_24 "ontap-nas" "svm0" "trident_"
  refine ⟨h0, hneg, ?_, ?_⟩
  · simp [telemetryStartBody, h0, telemetryLoop]
  · simp [telemetryStartBody, h24, telemetryLoop]

/-- Claim C1 counterexample: the code does not raise two distinguishable error
kinds for the zero-candidate and many-candidate cases.  With the SVM unset, a
zero-record vserver enumeration and a two-record enumeration produce the
identical error ("cannot derive SVM to use; please specify SVM in config
file"), refuting the claimed NoContext / AmbiguousContext distinction. -/
theorem InitializeOntapAPI_same_error_counterexample :
    InitializeOntapAPI ⟨"10.0.0.1", "", "admin", "pw"⟩ (.ok ⟨0, []⟩) =
      .error "cannot derive SVM to use; please specify SVM in config file" ∧
    InitializeOntapAPI ⟨"10.0.0.1", "", "admin", "pw"⟩ (.ok ⟨2, ["svmA", "svmB"]⟩) =
      .error "cannot derive SVM to use; please specify SVM in config file" := by
  exact ⟨rfl, rfl⟩

/-- Claim C1, amended: when the SVM name is unset and the management API
reports exactly one candidate context, initialization adopts that candidate
and re-issues the API client bound to it; when the API reports zero or two or
more candidates, initialization fails — with one and the same error in both
cases, not two distinguishable error kinds. -/
theorem InitializeOntapAPI_svm_derivation (config : OntapApiConfig)
    (resp : VserverResponse) (hsvm : config.svm = "") :
    (∀ v, resp.numRecords = 1 → resp.vserverNames = [v] →
      InitializeOntapAPI config (.ok resp) =
        .ok ({ config with svm := v },
             newClient ⟨config.managementLIF, v, config.username, config.password⟩)) ∧
    (resp.numRecords ≠ 1 →
      InitializeOntapAPI config (.ok resp) =
        .error "cannot derive SVM to use; please specify SVM in config file") := by
  constructor
  · intro v h1 hv
    simp [InitializeOntapAPI, hsvm, h1, hv, newClient]
  · intro h1
    simp [InitializeOntapAPI, hsvm, h1]

/-- Claim C1 witness at a concrete input: one candidate is adopted and the
client is re-issued bound to it. -/
theorem InitializeOntapAPI_svm_derivation_witness :
    InitializeOntapAPI ⟨"10.0.0.1", "", "admin", "pw"⟩ (.ok ⟨1, ["svm0"]⟩) =
      .ok (⟨"10.0.0.1", "svm0", "admin", "pw"⟩,
           newClient ⟨"10.0.0.1", "svm0", "admin", "pw"⟩) :=
  (InitializeOntapAPI_svm_derivation ⟨"10.0.0.1", "", "admin", "pw"⟩
    ⟨1, ["svm0"]⟩ rfl).1 "svm0" rfl rfl

/-- Claim C4: for every clone request whose target volume name already exists,
the workflow fails with the "already exists" error as its first step and
issues no mutating remote call (no snapshot, no clone, no mount, no split). -/
theorem CreateOntapClone_already_exists (name source snapshot : String) (split : Bool)
    (storageDriverName nowStamp : String) (apiC : CloneApi)
    (h : apiC.volumeExists name = .ok true) :
    CreateOntapClone name source snapshot split storageDriverName nowStamp apiC =
      (.error ("volume " ++ name ++ " already exists"), []) := by
  simp [CreateOntapClone, h]

/-- Claim C4 witness at a concrete input. -/
theorem CreateOntapClone_already_exists_witness :
    CreateOntapClone "vol1" "srcvol" "" true "ontap-nas" "20180101T000000Z"
      { volumeExists := fun _ => .ok true,
        snapshotCreate := fun _ _ => none,
        volumeCloneCreate := fun _ _ _ => .ok ⟨true, 0, ""⟩,
        volumeMount := fun _ _ => none,
        volumeCloneSplitStart := fun _ => none } =
      (.error ("volume " ++ "vol1" ++ " already exists"), []) :=
  CreateOntapClone_already_exists "vol1" "srcvol" "" true "ontap-nas"
    "20180101T000000Z" _ rfl

/-- Claim C5: in the clone-creation step, a failed ZAPI status carrying the
"object not found" code is reported as an error naming both the chosen
snapshot and the source volume, while a failed status with any other code, or
a transport error, is reported as the generic "error creating clone". -/
theorem CreateOntapClone_clone_error_dispatch (name source snapshot : String)
    (split : Bool) (storageDriverName nowStamp : String) (apiC : CloneApi)
    (hex : apiC.volumeExists name = .ok false)
    (hsnapok : snapshot = "" → apiC.snapshotCreate nowStamp source = none) :
    (∀ zerr, apiC.volumeCloneCreate name source
        (if snapshot = "" then nowStamp else snapshot) = .ok zerr →
      zerr.passed = false →
      ((zerr.code = EOBJECTNOTFOUND →
        (CreateOntapClone name source snapshot split storageDriverName nowStamp apiC).1 =
          .error ("snapshot " ++ (if snapshot = "" then nowStamp else snapshot) ++
            " does not exist in volume " ++ source)) ∧
       (zerr.code ≠ EOBJECTNOTFOUND →
        (CreateOntapClone name source snapshot split storageDriverName nowStamp apiC).1 =
          .error ("error creating clone: " ++ zerr.msg)))) ∧
    (∀ e, apiC.volumeCloneCreate name source
        (if snapshot = "" then nowStamp else snapshot) = .error e →
      (CreateOntapClone name source snapshot split storageDriverName nowStamp apiC).1 =
        .error ("error creating clone: " ++ e)) := by
  by_cases hs : snapshot = ""
  · constructor
    · intro zerr hclone hfail
      rw [if_pos hs] at hclone
      constructor <;> intro hc <;>
        simp [CreateOntapClone, hex, hs, hsnapok hs, hclone, hfail, hc]
    · intro e hclone
      rw [if_pos hs] at hclone
      simp [CreateOntapClone, hex, hs, hsnapok hs, hclone]
  · constructor
    · intro zerr hclone hfail
      rw [if_neg hs] at hclone
      constructor <;> intro hc <;>
        simp [CreateOntapClone, hex, hs, hclone, hfail, hc]
    · intro e hclone
      rw [if_neg hs] at hclone
      simp [CreateOntapClone, hex, hs, hclone]

/-- Claim C5 witness at a concrete input: an "object not found" status from
clone creation yields the snapshot-not-found message naming snapshot and
source. -/
theorem CreateOntapClone_clone_error_dispatch_witness :
    (CreateOntapClone "vol1" "srcvol" "snap1" false "ontap-nas" "20180101T000000Z"
      { volumeExists := fun _ => .ok false,
        snapshotCreate := fun _ _ => none,
        volumeCloneCreate := fun _ _ _ => .ok ⟨false, EOBJECTNOTFOUND, "entry not found"⟩,
        volumeMount := fun _ _ => none,
        volumeCloneSplitStart := fun _ => none }).1 =
      .error ("snapshot " ++ (if "snap1" = "" then "20180101T000000Z" else "snap1") ++
        " does not exist in volume " ++ "srcvol") :=
  ((CreateOntapClone_clone_error_dispatch "vol1" "srcvol" "snap1" false "ontap-nas"
      "20180101T000000Z" _ rfl (fun h => absurd h (by decide))).1
    ⟨false, EOBJECTNOTFOUND, "entry not found"⟩ rfl rfl).1 rfl

/-- Helper for claim C7: a loop iteration whose poll reports a non-empty,
non-idle mirror set without error, before the timeout has elapsed, continues
into the next iteration. -/
theorem mirrorWaitLoop_step (poll : Nat → MirrorResponse) (rootStatus : ZapiStatus)
    (i : Nat) (hpass : rootStatus.passed = true)
    (he : (poll i).err = none) (hn : (poll i).numRecords ≠ 0)
    (hidle : mirrorsIdle (poll i).records = false)
    (hlt : ¬ LSMirrorIdleTimeoutSecs < i) :
    mirrorWaitLoop poll rootStatus i = mirrorWaitLoop poll rootStatus (i + 1) := by
  conv_lhs => rw [mirrorWaitLoop]
  simp [getError, he, hpass, hn, hidle, hlt]

/-- Helper for claim C7: a loop iteration whose poll reports all mirrors idle
exits immediately with the iteration count. -/
theorem mirrorWaitLoop_idle_exit (poll : Nat → MirrorResponse) (rootStatus : ZapiStatus)
    (i : Nat) (hpass : rootStatus.passed = true)
    (he : (poll i).err = none) (hn : (poll i).numRecords ≠ 0)
    (hidle : mirrorsIdle (poll i).records = true) :
    mirrorWaitLoop poll rootStatus i = (i, .allIdle) := by
  rw [mirrorWaitLoop]
  simp [getError, he, hpass, hn, hidle]

/-- Helper for claim C7: a loop iteration past the timeout whose poll still
reports a non-empty, non-idle mirror set exits with a timeout. -/
theorem mirrorWaitLoop_timeout_exit (poll : Nat → MirrorResponse)
    (rootStatus : ZapiStatus) (i : Nat) (hpass : rootStatus.passed = true)
    (he : (poll i).err = none) (hn : (poll i).numRecords ≠ 0)
    (hidle : mirrorsIdle (poll i).records = false)
    (hgt : LSMirrorIdleTimeoutSecs < i) :
    mirrorWaitLoop poll rootStatus i = (i, .timedOut) := by
  rw [mirrorWaitLoop]
  simp [getError, he, hpass, hn, hidle, hgt]

/-- Helper for claim C7: under successful preliminary calls and a non-empty
initial mirror list, the function proceeds into the wait loop at iteration 1. -/
theorem UpdateLoadSharingMirrors_enters_loop (apiM : MirrorApi)
    (h1 : apiM.volumeGetRootName.err = none)
    (h2 : apiM.volumeGetRootName.status.passed = true)
    (h3 : apiM.initialMirrors.err = none)
    (h4 : apiM.initialMirrors.numRecords ≠ 0)
    (h5 : apiM.updateErr = none) :
    UpdateLoadSharingMirrors apiM =
      mirrorWaitLoop apiM.poll apiM.volumeGetRootName.status 1 := by
  simp [UpdateLoadSharingMirrors, getError, h1, h2, h3, h4, h5]

/-- Helper for claim C7: if every poll up to the timeout horizon reports a
non-empty, non-idle mirror set without error, the wait loop started at
iteration `i` exits by timeout after the poll at `LSMirrorIdleTimeoutSecs + 1`
seconds. -/
theorem mirrorWaitLoop_timeout (poll : Nat → MirrorResponse) (rootStatus : ZapiStatus)
    (hroot : rootStatus.passed = true)
    (hp : ∀ j, 1 ≤ j → j ≤ LSMirrorIdleTimeoutSecs + 1 →
      (poll j).err = none ∧ (poll j).numRecords ≠ 0 ∧
        mirrorsIdle (poll j).records = false) :
    ∀ i, 1 ≤ i → i ≤ LSMirrorIdleTimeoutSecs + 1 →
      mirrorWaitLoop poll rootStatus i = (LSMirrorIdleTimeoutSecs + 1, .timedOut) := by
  suffices h : ∀ n i, 1 ≤ i → i + n = LSMirrorIdleTimeoutSecs + 1 →
      mirrorWaitLoop poll rootStatus i = (LSMirrorIdleTimeoutSecs + 1, .timedOut) by
    intro i h1 h2
    exact h (LSMirrorIdleTimeoutSecs + 1 - i) i h1 (by omega)
  intro n
  induction n with
  | zero =>
    intro i h1 h2
    have hi : i = LSMirrorIdleTimeoutSecs + 1 := by omega
    subst hi
    obtain ⟨he, hn, hidle⟩ := hp _ h1 (le_refl _)
    exact mirrorWaitLoop_timeout_exit poll rootStatus _ hroot he hn hidle (lt_add_one _)
  | succ n ih =>
    intro i h1 h2
    obtain ⟨he, hn, hidle⟩ := hp i h1 (by omega)
    rw [mirrorWaitLoop_step poll rootStatus i hroot he hn hidle (by omega)]
    exact ih (i + 1) (by omega) (by omega)

/-- Claim C7: given zero load-sharing mirrors on the root volume the routine
returns immediately without entering the polling loop; given mirrors that all
report "idle" on the second poll it returns after exactly two polling
iterations; given mirrors that never become idle it stops polling once the
30-second wall clock (measured from the start of waiting) elapses — and every
one of these paths returns to the caller without an error, the function
having no error result at all. -/
theorem UpdateLoadSharingMirrors_polling (apiA apiB apiC : MirrorApi)
    (haRoot : apiA.volumeGetRootName.err = none)
    (haPass : apiA.volumeGetRootName.status.passed = true)
    (haListErr : apiA.initialMirrors.err = none)
    (haZero : apiA.initialMirrors.numRecords = 0)
    (hbRoot : apiB.volumeGetRootName.err = none)
    (hbPass : apiB.volumeGetRootName.status.passed = true)
    (hbListErr : apiB.initialMirrors.err = none)
    (hbNonzero : apiB.initialMirrors.numRecords ≠ 0)
    (hbUpd : apiB.updateErr = none)
    (hb1e : (apiB.poll 1).err = none) (hb1n : (apiB.poll 1).numRecords ≠ 0)
    (hb1i : mirrorsIdle (apiB.poll 1).records = false)
    (hb2e : (apiB.poll 2).err = none) (hb2n : (apiB.poll 2).numRecords ≠ 0)
    (hb2i : mirrorsIdle (apiB.poll 2).records = true)
    (hcRoot : apiC.volumeGetRootName.err = none)
    (hcPass : apiC.volumeGetRootName.status.passed = true)
    (hcListErr : apiC.initialMirrors.err = none)
    (hcNonzero : apiC.initialMirrors.numRecords ≠ 0)
    (hcUpd : apiC.updateErr = none)
    (hcPoll : ∀ j, 1 ≤ j → j ≤ LSMirrorIdleTimeoutSecs + 1 →
      (apiC.poll j).err = none ∧ (apiC.poll j).numRecords ≠ 0 ∧
        mirrorsIdle (apiC.poll j).records = false) :
    UpdateLoadSharingMirrors apiA = (0, .noMirrors) ∧
    UpdateLoadSharingMirrors apiB = (2, .allIdle) ∧
    UpdateLoadSharingMirrors apiC = (LSMirrorIdleTimeoutSecs + 1, .timedOut) := by
  refine ⟨?_, ?_, ?_⟩
  · simp [UpdateLoadSharingMirrors, getError, haRoot, haPass, haListErr, haZero]
  · calc UpdateLoadSharingMirrors apiB
        = mirrorWaitLoop apiB.poll apiB.volumeGetRootName.status 1 :=
          UpdateLoadSharingMirrors_enters_loop apiB hbRoot hbPass hbListErr
            hbNonzero hbUpd
      _ = mirrorWaitLoop apiB.poll apiB.volumeGetRootName.status 2 :=
          mirrorWaitLoop_step _ _ 1 hbPass hb1e hb1n hb1i
            (by simp only [LSMirrorIdleTimeoutSecs]; omega)
      _ = (2, .allIdle) :=
          mirrorWaitLoop_idle_exit _ _ 2 hbPass hb2e hb2n hb2i
  · calc UpdateLoadSharingMirrors apiC
        = mirrorWaitLoop apiC.poll apiC.volumeGetRootName.status 1 :=
          UpdateLoadSharingMirrors_enters_loop apiC hcRoot hcPass hcListErr
            hcNonzero hcUpd
      _ = (LSMirrorIdleTimeoutSecs + 1, .timedOut) :=
          mirrorWaitLoop_timeout _ _ hcPass hcPoll 1 (by omega) (by omega)

/-- Claim C7 witness at concrete inputs: an empty mirror list, a mirror idle
on the second poll, and a mirror never idle. -/
theorem UpdateLoadSharingMirrors_polling_witness :
    UpdateLoadSharingMirrors
      { volumeGetRootName := ⟨none, ⟨true, ""⟩, "rootvol"⟩,
        initialMirrors := ⟨none, ⟨true, ""⟩, 0, []⟩,
        updateErr := none,
        poll := fun _ => ⟨none, ⟨true, ""⟩, 0, []⟩ } = (0, .noMirrors) ∧
    UpdateLoadSharingMirrors
      { volumeGetRootName := ⟨none, ⟨true, ""⟩, "rootvol"⟩,
        initialMirrors := ⟨none, ⟨true, ""⟩, 1,
          [⟨"svm0:rootvol_m1", some "transferring"⟩]⟩,
        updateErr := none,
        poll := fun j =>
          if j = 1 then ⟨none, ⟨true, ""⟩, 1, [⟨"svm0:rootvol_m1", some "transferring"⟩]⟩
          else ⟨none, ⟨true, ""⟩, 1, [⟨"svm0:rootvol_m1", some "idle"⟩]⟩ } =
      (2, .allIdle) ∧
    UpdateLoadSharingMirrors
      { volumeGetRootName := ⟨none, ⟨true, ""⟩, "rootvol"⟩,
        initialMirrors := ⟨none, ⟨true, ""⟩, 1,
          [⟨"svm0:rootvol_m1", some "transferring"⟩]⟩,
        updateErr := none,
        poll := fun _ => ⟨none, ⟨true, ""⟩, 1,
          [⟨"svm0:rootvol_m1", some "transferring"⟩]⟩ } =
      (LSMirrorIdleTimeoutSecs + 1, .timedOut) :=
  UpdateLoadSharingMirrors_polling _ _ _
    rfl rfl rfl rfl
    rfl rfl rfl (by decide) rfl
    rfl (by decide) (by decide)
    rfl (by decide) (by decide)
    rfl rfl rfl (by decide) rfl
    (by
      intro j h1 h2
      refine ⟨rfl, ?_, ?_⟩
      · exact (by decide : (1 : Nat) ≠ 0)
      · exact (by decide :
          mirrorsIdle [⟨"svm0:rootvol_m1", some "transferring"⟩] = false))

/-- The pool-map construction: with distinct aggregate names, none already in
the accumulator, the fold appends one empty pool per name. -/
theorem buildPools_eq (aggrs : List String) :
    ∀ acc : List Pool, aggrs.Nodup →
      (∀ a ∈ aggrs, acc.any (fun p => p.name == a) = false) →
      aggrs.foldl (fun ps aggrName =>
        if ps.any (fun p => p.name == aggrName) then ps
        else ps ++ [{ name := aggrName, attributes := [] }]) acc =
      acc ++ aggrs.map (fun a => { name := a, attributes := [] }) := by
  induction aggrs with
  | nil => intro acc _ _; simp
  | cons a as ih =>
    intro acc hnodup hdisj
    have ha : acc.any (fun p => p.name == a) = false :=
      hdisj a (List.mem_cons_self a as)
    have hna : a ∉ as := (List.nodup_cons.mp hnodup).1
    have hdisj2 : ∀ b ∈ as,
        ((acc ++ [({ name := a, attributes := [] } : Pool)]).any
          fun p => p.name == b) = false := by
      intro b hb
      rw [List.any_append]
      have h1 : acc.any (fun p => p.name == b) = false :=
        hdisj b (List.mem_cons_of_mem a hb)
      have h2 : a ≠ b := fun h => hna (h ▸ hb)
      simp [h1, h2]
    simp only [List.foldl_cons, ha, Bool.false_eq_true, if_false]
    rw [ih (acc ++ [({ name := a, attributes := [] } : Pool)])
      (List.Nodup.of_cons hnodup) hdisj2]
    simp

/-- Updating one aggregate's attributes does not change pool names. -/
theorem updatePoolsWithAggr_names (pools : List Pool) (aggrName aggrType : String) :
    (updatePoolsWithAggr pools aggrName aggrType).map (fun p => p.name) =
      pools.map (fun p => p.name) := by
  unfold updatePoolsWithAggr
  cases ontapPerformanceClasses aggrType with
  | none => rfl
  | some attrs =>
    simp
    intro q _
    by_cases hq : q.name = aggrName <;> simp [hq]

/-- Folding a list of aggregate records over the pools does not change pool
names. -/
theorem strategyFold_names (records : List (String × String)) :
    ∀ pools : List Pool,
      ((records.foldl (fun ps r => updatePoolsWithAggr ps r.1 r.2) pools).map
        (fun p => p.name)) = pools.map (fun p => p.name) := by
  induction records with
  | nil => intro pools; rfl
  | cons r rs ih =>
    intro pools
    simp only [List.foldl_cons]
    rw [ih, updatePoolsWithAggr_names]

/-- The vserver-scoped strategy does not change pool names. -/
theorem getVserverAggregateAttributes_names
    (resp : Except ApiError (List (String × String))) (pools : List Pool) :
    ((getVserverAggregateAttributes resp pools).1).map (fun p => p.name) =
      pools.map (fun p => p.name) := by
  cases resp with
  | error e => rfl
  | ok records => simpa using strategyFold_names records pools

/-- The cluster-scoped strategy does not change pool names. -/
theorem getClusterAggregateAttributes_names
    (resp : Except ApiError (List (String × String))) (pools : List Pool) :
    ((getClusterAggregateAttributes resp pools).1).map (fun p => p.name) =
      pools.map (fun p => p.name) := by
  cases resp with
  | error e => rfl
  | ok records => simpa using strategyFold_names records pools

/-- Left fold with cons reverses onto the accumulator. -/
theorem foldl_cons_reverse {α : Type} (l : List α) :
    ∀ acc : List α, l.foldl (fun a x => x :: a) acc = l.reverse ++ acc := by
  induction l with
  | nil => intro acc; simp
  | cons x xs ih => intro acc; simp [ih]

/-- Mapping the attribute merge over freshly built pools keeps the aggregate
names, in order. -/
theorem map_merge_names (attrs : List (String × String)) (aggrs : List String) :
    (((aggrs.map (fun a => ({ name := a, attributes := [] } : Pool))).map
      (fun p => ({ p with attributes := attrs.foldl (fun a kv => kv :: a) p.attributes } : Pool))).map
      (fun p => p.name)) = aggrs := by
  induction aggrs with
  | nil => rfl
  | cons a as ih =>
    simp only [List.map_cons, List.cons.injEq]
    exact ⟨trivial, ih⟩

/-- An association list none of whose keys is `k` has no entry for `k`. -/
theorem lookup_eq_none_of_keys_ne (k : String) :
    ∀ l : List (String × String), (∀ kv ∈ l, kv.1 ≠ k) → l.lookup k = none := by
  intro l
  induction l with
  | nil => intro _; rfl
  | cons x xs ih =>
    intro h
    rcases x with ⟨xk, xv⟩
    have hx : (k == xk) = false :=
      beq_eq_false_iff_ne.mpr (Ne.symm (h (xk, xv) (List.mem_cons_self _ xs)))
    simp [List.lookup, hx, ih (fun kv hkv => h kv (List.mem_cons_of_mem _ hkv))]

/-- Claim C3: when the aggregate-attribute lookup chosen by the feature-support
query fails, pool discovery still returns successfully with one pool per
assigned aggregate, all lacking media attributes, and the failure is surfaced
as a warning-level signal exactly when it is a scope (privilege/authorization)
error and as an error-level log otherwise — in either case non-fatally. -/
theorem discovery_media_failure_nonfatal (svm : String) (aggrs : List String)
    (poolAttributes : List (String × String)) (supports : Bool) (e : ApiError)
    (hne : aggrs ≠ []) (hnodup : aggrs.Nodup)
    (hpa : ∀ kv ∈ poolAttributes, kv.1 ≠ saMedia) :
    ∃ r, getStorageBackendSpecsCommon svm "" poolAttributes
        { vserverAggrs := .ok aggrs, supportsVServerShowAggr := supports,
          vserverShowAggrResp := .error e, clusterAggrResp := .error e } = .ok r ∧
      r.pools.map (fun p => p.name) = aggrs ∧
      (∀ p ∈ r.pools, p.attributes.lookup saMedia = none) ∧
      r.aggrLog = some (if e.isScopeError then .warn else .err) := by
  have hlen : ¬ (aggrs.length = 0) := fun h => hne (List.length_eq_zero.mp h)
  have hbuild := buildPools_eq aggrs [] hnodup (fun a _ => rfl)
  refine ⟨⟨(aggrs.map fun a => ({ name := a, attributes := [] } : Pool)).map
      (fun p => { p with attributes :=
        poolAttributes.foldl (fun a kv => kv :: a) p.attributes }),
    if e.isScopeError then some .warn else some .err⟩, ?_, ?_, ?_, ?_⟩
  · simp only [getStorageBackendSpecsCommon]
    rw [if_neg hlen, hbuild]
    rw [if_neg (show ¬ (("" : String) ≠ "") by simp)]
    cases supports
    · simp [getClusterAggregateAttributes]
    · simp [getVserverAggregateAttributes]
  · exact map_merge_names poolAttributes aggrs
  · intro p hp
    simp only [List.map_map, List.mem_map, Function.comp] at hp
    obtain ⟨a, ha, hpa2⟩ := hp
    subst hpa2
    rw [foldl_cons_reverse]
    apply lookup_eq_none_of_keys_ne
    intro kv hkv
    exact hpa kv (by simpa using hkv)
  · by_cases he : e.isScopeError <;> simp [he]

/-- Claim C3 witness at a concrete input: a scope error from the chosen
strategy over two assigned aggregates. -/
theorem discovery_media_failure_nonfatal_witness :
    ∃ r, getStorageBackendSpecsCommon "svm0" "" [("backendType", "ontap-nas")]
        { vserverAggrs := .ok ["aggr1", "aggr2"], supportsVServerShowAggr := true,
          vserverShowAggrResp := .error (.zapi "insufficient privileges" true),
          clusterAggrResp := .error (.zapi "insufficient privileges" true) } = .ok r ∧
      r.pools.map (fun p => p.name) = ["aggr1", "aggr2"] ∧
      (∀ p ∈ r.pools, p.attributes.lookup saMedia = none) ∧
      r.aggrLog = some (if (ApiError.zapi "insufficient privileges" true).isScopeError
        then .warn else .err) :=
  discovery_media_failure_nonfatal "svm0" ["aggr1", "aggr2"]
    [("backendType", "ontap-nas")] true (.zapi "insufficient privileges" true)
    (by decide) (by decide) (by decide)

/-- Freshly built pools carry exactly the aggregate names, in order. -/
theorem map_mk_names (aggrs : List String) :
    ((aggrs.map (fun a => ({ name := a, attributes := [] } : Pool))).map
      (fun p => p.name)) = aggrs := by
  induction aggrs with
  | nil => rfl
  | cons a as ih =>
    simp only [List.map_cons, List.cons.injEq]
    exact ⟨trivial, ih⟩

/-- Merging the common pool attributes does not change pool names. -/
theorem map_merge_preserves_names (attrs : List (String × String)) (pools : List Pool) :
    ((pools.map (fun p => ({ p with attributes := attrs.foldl (fun a kv => kv :: a) p.attributes } : Pool))).map
      (fun p => p.name)) = pools.map (fun p => p.name) := by
  induction pools with
  | nil => rfl
  | cons p ps ih =>
    simp only [List.map_cons, List.cons.injEq]
    exact ⟨trivial, ih⟩

/-- Claim C6: for a scoped context with assigned aggregates, pool discovery
with no configured aggregate restriction produces exactly one pool per
aggregate name (N pools for N aggregates); with a restriction that is among
the assigned set it produces exactly the one pool for that aggregate; with a
restriction not among the assigned set it fails with the
aggregate-not-assigned error. -/
theorem discovery_aggregate_restriction (svm aggregate : String)
    (aggrs : List String) (poolAttributes : List (String × String))
    (inp : DiscoveryInput) (hin : inp.vserverAggrs = .ok aggrs)
    (hne : aggrs ≠ []) (hnodup : aggrs.Nodup) :
    (aggregate = "" →
      ∃ r, getStorageBackendSpecsCommon svm aggregate poolAttributes inp = .ok r ∧
        r.pools.map (fun p => p.name) = aggrs ∧ r.pools.length = aggrs.length) ∧
    (aggregate ≠ "" → aggregate ∈ aggrs →
      ∃ r, getStorageBackendSpecsCommon svm aggregate poolAttributes inp = .ok r ∧
        r.pools.map (fun p => p.name) = [aggregate]) ∧
    (aggregate ≠ "" → aggregate ∉ aggrs →
      getStorageBackendSpecsCommon svm aggregate poolAttributes inp =
        .error ("the assigned aggregates for SVM " ++ svm ++
          " do not include the configured aggregate " ++ aggregate)) := by
  have hlen : ¬ (aggrs.length = 0) := fun h => hne (List.length_eq_zero.mp h)
  have hbuild := buildPools_eq aggrs [] hnodup (fun a _ => rfl)
  have hstrat : ∀ pools : List Pool,
      ((if inp.supportsVServerShowAggr then
          getVserverAggregateAttributes inp.vserverShowAggrResp pools
        else
          getClusterAggregateAttributes inp.clusterAggrResp pools).1).map
        (fun p => p.name) = pools.map (fun p => p.name) := by
    intro pools
    cases inp.supportsVServerShowAggr
    · simpa using getClusterAggregateAttributes_names inp.clusterAggrResp pools
    · simpa using getVserverAggregateAttributes_names inp.vserverShowAggrResp pools
  refine ⟨?_, ?_, ?_⟩
  · intro ha
    subst ha
    simp only [getStorageBackendSpecsCommon, hin]
    rw [if_neg hlen, hbuild]
    rw [if_neg (show ¬ (("" : String) ≠ "") by simp)]
    simp only [List.nil_append]
    refine ⟨_, rfl, ?_, ?_⟩
    · rw [map_merge_preserves_names, hstrat, map_mk_names]
    · have h1 := map_merge_preserves_names poolAttributes
        ((if inp.supportsVServerShowAggr then
            getVserverAggregateAttributes inp.vserverShowAggrResp
              (aggrs.map (fun a => ({ name := a, attributes := [] } : Pool)))
          else
            getClusterAggregateAttributes inp.clusterAggrResp
              (aggrs.map (fun a => ({ name := a, attributes := [] } : Pool)))).1)
      have h2 := hstrat (aggrs.map (fun a => ({ name := a, attributes := [] } : Pool)))
      have h3 := map_mk_names aggrs
      calc _ = (_ : List String).length := (List.length_map _ _).symm
        _ = aggrs.length := by rw [h1, h2, h3]
  · intro ha hmem
    have hany : ((aggrs.map (fun a => ({ name := a, attributes := [] } : Pool))).any
        (fun p => p.name == aggregate)) = true := by
      rw [List.any_eq_true]
      exact ⟨{ name := aggregate, attributes := [] },
        List.mem_map.mpr ⟨aggregate, hmem, rfl⟩, by simp⟩
    simp only [getStorageBackendSpecsCommon, hin]
    rw [if_neg hlen, hbuild]
    simp only [List.nil_append]
    rw [if_pos ha, if_pos hany]
    refine ⟨_, rfl, ?_⟩
    rw [map_merge_preserves_names, hstrat]
    rfl
  · intro ha hmem
    have hany : ((aggrs.map (fun a => ({ name := a, attributes := [] } : Pool))).any
        (fun p => p.name == aggregate)) = false := by
      rw [Bool.eq_false_iff]
      intro hc
      obtain ⟨p, hp, hpb⟩ := List.any_eq_true.mp hc
      obtain ⟨a, haa, rfl⟩ := List.mem_map.mp hp
      exact hmem ((beq_iff_eq.mp hpb) ▸ haa)
    simp only [getStorageBackendSpecsCommon, hin]
    rw [if_neg hlen, hbuild]
    simp only [List.nil_append]
    rw [if_pos ha, if_neg (by rw [hany]; exact Bool.false_ne_true)]

/-- Claim C6 witness at concrete inputs: two assigned aggregates with a
restriction to the first one. -/
theorem discovery_aggregate_restriction_witness :
    ("aggr1" = "" →
      ∃ r, getStorageBackendSpecsCommon "svm0" "aggr1" [("backendType", "ontap-nas")]
          { vserverAggrs := .ok ["aggr1", "aggr2"], supportsVServerShowAggr := true,
            vserverShowAggrResp := .ok [("aggr1", "ssd")], clusterAggrResp := .ok [] } = .ok r ∧
        r.pools.map (fun p => p.name) = ["aggr1", "aggr2"] ∧
        r.pools.length = (["aggr1", "aggr2"] : List String).length) ∧
    ("aggr1" ≠ "" → "aggr1" ∈ (["aggr1", "aggr2"] : List String) →
      ∃ r, getStorageBackendSpecsCommon "svm0" "aggr1" [("backendType", "ontap-nas")]
          { vserverAggrs := .ok ["aggr1", "aggr2"], supportsVServerShowAggr := true,
            vserverShowAggrResp := .ok [("aggr1", "ssd")], clusterAggrResp := .ok [] } = .ok r ∧
        r.pools.map (fun p => p.name) = ["aggr1"]) ∧
    ("aggr1" ≠ "" → "aggr1" ∉ (["aggr1", "aggr2"] : List String) →
      getStorageBackendSpecsCommon "svm0" "aggr1" [("backendType", "ontap-nas")]
          { vserverAggrs := .ok ["aggr1", "aggr2"], supportsVServerShowAggr := true,
            vserverShowAggrResp := .ok [("aggr1", "ssd")], clusterAggrResp := .ok [] } =
        .error ("the assigned aggregates for SVM " ++ "svm0" ++
          " do not include the configured aggregate " ++ "aggr1")) :=
  discovery_aggregate_restriction "svm0" "aggr1" ["aggr1", "aggr2"]
    [("backendType", "ontap-nas")]
    { vserverAggrs := .ok ["aggr1", "aggr2"], supportsVServerShowAggr := true,
      vserverShowAggrResp := .ok [("aggr1", "ssd")], clusterAggrResp := .ok [] }
    rfl (by decide) (by decide)

/-- On a valid configuration, `PopulateConfigurationDefaults` succeeds and
returns exactly the field-wise defaulted configuration. -/
theorem populate_eq_ok (convertSizeToBytes : String → Option Nat)
    (dvs dsp : String) (c : OntapStorageDriverConfig)
    (hsize : c.size = "" ∨ (convertSizeToBytes c.size).isSome)
    (hsplit : c.splitOnClone = "" ∨ (parseBool? c.splitOnClone).isSome) :
    PopulateConfigurationDefaults convertSizeToBytes dvs dsp c =
      .ok (resolvedConfig dvs dsp c) := by
  by_cases h1 : c.size = ""
  · by_cases h2 : c.splitOnClone = ""
    · simp [PopulateConfigurationDefaults, populateRest, populateTail,
        resolvedConfig, h1, h2]
    · obtain ⟨b, hb⟩ := Option.isSome_iff_exists.mp (hsplit.resolve_left h2)
      simp [PopulateConfigurationDefaults, populateRest, populateTail,
        resolvedConfig, h1, h2, hb]
  · obtain ⟨n, hn⟩ := Option.isSome_iff_exists.mp (hsize.resolve_left h1)
    by_cases h2 : c.splitOnClone = ""
    · simp [PopulateConfigurationDefaults, populateRest, populateTail,
        resolvedConfig, h1, h2, hn]
    · obtain ⟨b, hb⟩ := Option.isSome_iff_exists.mp (hsplit.resolve_left h2)
      simp [PopulateConfigurationDefaults, populateRest, populateTail,
        resolvedConfig, h1, h2, hn, hb]

/-- Defaulting a string field is stable under a second application. -/
theorem defaultedField_stable (v d : String) :
    (if (if v = "" then d else v) = "" then d else (if v = "" then d else v)) =
      (if v = "" then d else v) := by
  by_cases hv : v = "" <;> simp [hv]

/-- Defaulting an optional field is stable under a second application. -/
theorem defaultedOpt_stable (v : Option String) (d : String) :
    (if (if v = none then some d else v) = none then some d
      else (if v = none then some d else v)) =
      (if v = none then some d else v) := by
  cases v <;> simp

/-- The field-wise defaulting is idempotent. -/
theorem resolvedConfig_idem (dvs dsp : String) (c : OntapStorageDriverConfig) :
    resolvedConfig dvs dsp (resolvedConfig dvs dsp c) = resolvedConfig dvs dsp c := by
  simp only [resolvedConfig, OntapStorageDriverConfig.mk.injEq,
    defaultedField_stable, defaultedOpt_stable]

/-- Claim C9: for every valid configuration, the resolver substitutes the
documented default for each absent optional field — space-reserve "none",
snapshot-policy "none", unix-permissions "---rwxrwxrwx", snapshot-dir
"false", export-policy "default", security-style "unix", nfs-mount-options
"-o nfsvers=3", split-on-clone "false", filesystem-type "ext4", encryption
"false", and the driver-type default size and storage-name prefix — and a
second application to its own output leaves the configuration unchanged. -/
theorem PopulateConfigurationDefaults_defaults_idempotent
    (convertSizeToBytes : String → Option Nat)
    (defaultVolumeSize defaultStoragePfx : String) (c : OntapStorageDriverConfig)
    (hsize : c.size = "" ∨ (convertSizeToBytes c.size).isSome)
    (hsplit : c.splitOnClone = "" ∨ (parseBool? c.splitOnClone).isSome)
    (hdvs : (convertSizeToBytes defaultVolumeSize).isSome) :
    ∃ c', PopulateConfigurationDefaults convertSizeToBytes defaultVolumeSize
        defaultStoragePfx c = .ok c' ∧
      (c.size = "" → c'.size = defaultVolumeSize) ∧
      (c.storagePfx = none → c'.storagePfx = some defaultStoragePfx) ∧
      (c.spaceReserve = "" → c'.spaceReserve = DefaultSpaceReserve) ∧
      (c.snapshotPolicy = "" → c'.snapshotPolicy = DefaultSnapshotPolicy) ∧
      (c.unixPermissions = "" → c'.unixPermissions = DefaultUnixPermissions) ∧
      (c.snapshotDir = "" → c'.snapshotDir = DefaultSnapshotDir) ∧
      (c.exportPolicy = "" → c'.exportPolicy = DefaultExportPolicy) ∧
      (c.securityStyle = "" → c'.securityStyle = DefaultSecurityStyle) ∧
      (c.nfsMountOptions = "" → c'.nfsMountOptions = DefaultNfsMountOptions) ∧
      (c.splitOnClone = "" → c'.splitOnClone = DefaultSplitOnClone) ∧
      (c.fileSystemType = "" → c'.fileSystemType = DefaultFileSystemType) ∧
      (c.encryption = "" → c'.encryption = DefaultEncryption) ∧
      PopulateConfigurationDefaults convertSizeToBytes defaultVolumeSize
        defaultStoragePfx c' = .ok c' := by
  refine ⟨resolvedConfig defaultVolumeSize defaultStoragePfx c,
    populate_eq_ok _ _ _ _ hsize hsplit,
    ?_, ?_, ?_, ?_, ?_, ?_, ?_, ?_, ?_, ?_, ?_, ?_, ?_⟩
  · intro h; simp [resolvedConfig, h]
  · intro h; simp [resolvedConfig, h]
  · intro h; simp [resolvedConfig, h]
  · intro h; simp [resolvedConfig, h]
  · intro h; simp [resolvedConfig, h]
  · intro h; simp [resolvedConfig, h]
  · intro h; simp [resolvedConfig, h]
  · intro h; simp [resolvedConfig, h]
  · intro h; simp [resolvedConfig, h]
  · intro h; simp [resolvedConfig, h]
  · intro h; simp [resolvedConfig, h]
  · intro h; simp [resolvedConfig, h]
  · have hsize2 : (resolvedConfig defaultVolumeSize defaultStoragePfx c).size = "" ∨
        (convertSizeToBytes
          (resolvedConfig defaultVolumeSize defaultStoragePfx c).size).isSome := by
      by_cases h1 : c.size = ""
      · right
        simpa [resolvedConfig, h1] using hdvs
      · right
        simpa [resolvedConfig, h1] using hsize.resolve_left h1
    have hsplit2 : (resolvedConfig defaultVolumeSize defaultStoragePfx c).splitOnClone = "" ∨
        (parseBool?
          (resolvedConfig defaultVolumeSize defaultStoragePfx c).splitOnClone).isSome := by
      by_cases h2 : c.splitOnClone = ""
      · right
        simp [resolvedConfig, h2, DefaultSplitOnClone, parseBool?]
      · right
        simpa [resolvedConfig, h2] using hsplit.resolve_left h2
    rw [populate_eq_ok _ _ _ _ hsize2 hsplit2, resolvedConfig_idem]

/-- Claim C9 witness: the all-absent configuration under a sample size
parser. -/
theorem PopulateConfigurationDefaults_defaults_idempotent_witness :
    ∃ c', PopulateConfigurationDefaults
        (fun s => if s = "1G" then some 1073741824 else none) "1G" "trident_"
        ⟨"", none, "", "", "", "", "", "", "", "", "", ""⟩ = .ok c' ∧
      ((OntapStorageDriverConfig.mk "" none "" "" "" "" "" "" "" "" "" "").size = "" →
        c'.size = "1G") ∧
      ((OntapStorageDriverConfig.mk "" none "" "" "" "" "" "" "" "" "" "").storagePfx = none →
        c'.storagePfx = some "trident_") ∧
      ((OntapStorageDriverConfig.mk "" none "" "" "" "" "" "" "" "" "" "").spaceReserve = "" →
        c'.spaceReserve = DefaultSpaceReserve) ∧
      ((OntapStorageDriverConfig.mk "" none "" "" "" "" "" "" "" "" "" "").snapshotPolicy = "" →
        c'.snapshotPolicy = DefaultSnapshotPolicy) ∧
      ((OntapStorageDriverConfig.mk "" none "" "" "" "" "" "" "" "" "" "").unixPermissions = "" →
        c'.unixPermissions = DefaultUnixPermissions) ∧
      ((OntapStorageDriverConfig.mk "" none "" "" "" "" "" "" "" "" "" "").snapshotDir = "" →
        c'.snapshotDir = DefaultSnapshotDir) ∧
      ((OntapStorageDriverConfig.mk "" none "" "" "" "" "" "" "" "" "" "").exportPolicy = "" →
        c'.exportPolicy = DefaultExportPolicy) ∧
      ((OntapStorageDriverConfig.mk "" none "" "" "" "" "" "" "" "" "" "").securityStyle = "" →
        c'.securityStyle = DefaultSecurityStyle) ∧
      ((OntapStorageDriverConfig.mk "" none "" "" "" "" "" "" "" "" "" "").nfsMountOptions = "" →
        c'.nfsMountOptions = DefaultNfsMountOptions) ∧
      ((OntapStorageDriverConfig.mk "" none "" "" "" "" "" "" "" "" "" "").splitOnClone = "" →
        c'.splitOnClone = DefaultSplitOnClone) ∧
      ((OntapStorageDriverConfig.mk "" none "" "" "" "" "" "" "" "" "" "").fileSystemType = "" →
        c'.fileSystemType = DefaultFileSystemType) ∧
      ((OntapStorageDriverConfig.mk "" none "" "" "" "" "" "" "" "" "" "").encryption = "" →
        c'.encryption = DefaultEncryption) ∧
      PopulateConfigurationDefaults
        (fun s => if s = "1G" then some 1073741824 else none) "1G" "trident_" c' = .ok c' :=
  PopulateConfigurationDefaults_defaults_idempotent
    (fun s => if s = "1G" then some 1073741824 else none) "1G" "trident_"
    ⟨"", none, "", "", "", "", "", "", "", "", "", ""⟩
    (Or.inl rfl) (Or.inl rfl) (by decide)

/-- Claim C8: volume-size resolution fails for every requested size strictly
below the 20 MiB minimum volume size floor, succeeds at exactly the floor
returning the requested size, and a zero request substitutes the configured
default size before the floor check. -/
theorem GetVolumeSize_floor (sizeBytes : Nat) (configSizeParsed : Option Nat)
    (hpos : 0 < sizeBytes) :
    (sizeBytes < MinimumVolumeSizeBytes →
      isErr (GetVolumeSize sizeBytes configSizeParsed) = true) ∧
    (GetVolumeSize MinimumVolumeSizeBytes configSizeParsed = .ok MinimumVolumeSizeBytes) ∧
    (MinimumVolumeSizeBytes ≤ configSizeParsed.getD 0 →
      GetVolumeSize 0 configSizeParsed = .ok (configSizeParsed.getD 0)) ∧
    (configSizeParsed.getD 0 < MinimumVolumeSizeBytes →
      isErr (GetVolumeSize 0 configSizeParsed) = true) := by
  refine ⟨?_, ?_, ?_, ?_⟩
  · intro hlt
    have hne : sizeBytes ≠ 0 := Nat.pos_iff_ne_zero.mp hpos
    simp [GetVolumeSize, hne, hlt, isErr]
  · simp [GetVolumeSize, MinimumVolumeSizeBytes]
  · intro hge
    simp [GetVolumeSize, Nat.not_lt.mpr hge]
  · intro hlt
    simp [GetVolumeSize, hlt, isErr]

/-- Claim C8 witness at concrete inputs. -/
theorem GetVolumeSize_floor_witness :
    0 < 20971519 ∧
    ((20971519 < MinimumVolumeSizeBytes →
       isErr (GetVolumeSize 20971519 (some 1073741824)) = true) ∧
     (GetVolumeSize MinimumVolumeSizeBytes (some 1073741824) = .ok MinimumVolumeSizeBytes) ∧
     (MinimumVolumeSizeBytes ≤ (some (1073741824 : Nat)).getD 0 →
       GetVolumeSize 0 (some 1073741824) = .ok ((some (1073741824 : Nat)).getD 0)) ∧
     ((some (1073741824 : Nat)).getD 0 < MinimumVolumeSizeBytes →
       isErr (GetVolumeSize 0 (some 1073741824)) = true)) :=
  ⟨by decide, GetVolumeSize_floor 20971519 (some 1073741824) (by decide)⟩

/-- Claim C10: in passthrough mode internal volume-name derivation returns
exactly the configured storage prefix concatenated with the original name; in
non-passthrough mode the result contains no hyphen and no period, for every
input name and every behaviour of the external common-name collaborator. -/
theorem getInternalVolumeNameCommon_chars
    (getCommonInternalVolumeName : String → String) (storagePfx name : String) :
    getInternalVolumeNameCommon true getCommonInternalVolumeName storagePfx name =
      storagePfx ++ name ∧
    '-' ∉ (getInternalVolumeNameCommon false getCommonInternalVolumeName
      storagePfx name).toList ∧
    '.' ∉ (getInternalVolumeNameCommon false getCommonInternalVolumeName
      storagePfx name).toList := by
  refine ⟨rfl, ?_, ?_⟩
  · intro hmem
    simp only [getInternalVolumeNameCommon, if_neg (Bool.false_ne_true),
      stringsReplaceStr] at hmem
    have h1 : '-' ∉ ("_".toList) := by decide
    rcases mem_stringsReplace hmem with h | h
    · exact h1 h
    · rcases mem_stringsReplace h with h2 | h2
      · exact h1 h2
      · exact not_mem_stringsReplace_single h1 h2
  · intro hmem
    simp only [getInternalVolumeNameCommon, if_neg (Bool.false_ne_true),
      stringsReplaceStr] at hmem
    have h1 : '.' ∉ ("_".toList) := by decide
    rcases mem_stringsReplace hmem with h | h
    · exact h1 h
    · exact not_mem_stringsReplace_single h1 h

end Ontap
